import Mathlib

/-!
# Cars API client (`internal/car/api/api.go`)

A shallow embedding of the resilient cars client: the five operations of
`CarsAPI` (`HealthCheck`, `GetCars`, `GetCar`, `LockCar`, `UnlockCar`), the
two circuit breakers built by `New`, and the part of
`github.com/sony/gobreaker/v2` that `New` and `Execute` run.

Conventions of the embedding.

* Go's multiple return values are tuples; a Go `error` is `Option GoError`
  (`none` is `nil`).
* A Go slice is `Option (List α)`: `none` is the `nil` slice, `some []` is
  the empty, non-nil slice made by `make([]T, 0)`.
* Wall-clock time is a natural number of nanoseconds handed to each call
  (`time.Now()` is read once on admission and once on completion).
* The transport, the request constructor and the JSON decoders are external
  collaborators, gathered in `Env`; every operation also returns the list of
  requests it handed to the transport.
* Unsigned machine integers are naturals reduced modulo `2^32` or `2^64`
  where the code does arithmetic on them.
-/

namespace CarsApi

/-! ## Go errors -/

/-- Go `error` values. `ErrOpenState` and `ErrTooManyRequests` are the two
sentinels of gobreaker; `New text` is `errors.New(text)` (or any other error
without an `Unwrap` method, with that message); `Wrap text inner` is an error
with message `text` whose `Unwrap` returns `inner`, such as the `*url.Error`
that `http.Client.Do` puts around what its round tripper returned. -/
inductive GoError where
  | ErrOpenState
  | ErrTooManyRequests
  | New (text : String)
  | Wrap (text : String) (inner : GoError)
  deriving DecidableEq, Repr

/-- The `Error()` method: the message of an error. -/
def GoError.Error : GoError → String
  | .ErrOpenState => "circuit breaker is open"
  | .ErrTooManyRequests => "too many requests"
  | .New text => text
  | .Wrap text _ => text

/-- Go's `errors.Is(err, target)`: `err` or an error in its `Unwrap` chain is
`target`. -/
def errorsIs : GoError → GoError → Bool
  | .Wrap text inner, target =>
      if GoError.Wrap text inner = target then true else errorsIs inner target
  | e, target => decide (e = target)

/-! ## gobreaker v2

The breaker is the library `github.com/sony/gobreaker/v2`, which `New`
configures and `GetCars` and `GetCar` call through `Execute`. The
definitions of this section follow the library's `gobreaker.go` function by
function, under the library's names. -/

/-- The type `gobreaker.State`. -/
inductive State where
  | StateClosed
  | StateHalfOpen
  | StateOpen
  deriving DecidableEq, Repr

/-- The type `gobreaker.Counts`; every field is a `uint32`. -/
structure Counts where
  Requests : Nat
  TotalSuccesses : Nat
  TotalFailures : Nat
  ConsecutiveSuccesses : Nat
  ConsecutiveFailures : Nat
  deriving DecidableEq, Repr

/-- Increment of a `uint32`. -/
def incr32 (n : Nat) : Nat := (n + 1) % 2 ^ 32

/-- Increment of a `uint64`. -/
def incr64 (n : Nat) : Nat := (n + 1) % 2 ^ 64

/-- The method `Counts.onRequest`. -/
def Counts.onRequest (c : Counts) : Counts :=
  { c with Requests := incr32 c.Requests }

/-- The method `Counts.onSuccess`. -/
def Counts.onSuccess (c : Counts) : Counts :=
  { c with
    TotalSuccesses := incr32 c.TotalSuccesses
    ConsecutiveSuccesses := incr32 c.ConsecutiveSuccesses
    ConsecutiveFailures := 0 }

/-- The method `Counts.onFailure`. -/
def Counts.onFailure (c : Counts) : Counts :=
  { c with
    TotalFailures := incr32 c.TotalFailures
    ConsecutiveFailures := incr32 c.ConsecutiveFailures
    ConsecutiveSuccesses := 0 }

/-- The method `Counts.clear`: all counters back to zero. -/
def Counts.clear (_ : Counts) : Counts :=
  { Requests := 0, TotalSuccesses := 0, TotalFailures := 0,
    ConsecutiveSuccesses := 0, ConsecutiveFailures := 0 }

/-- The type `gobreaker.Settings`. `OnStateChange` is left out: the callback
`New` installs only writes a debug log line. A `nil` function field is
`none`. Durations are nanoseconds. -/
structure Settings where
  Name : String
  MaxRequests : Nat
  Interval : Nat
  Timeout : Nat
  ReadyToTrip : Option (Counts → Bool)
  IsSuccessful : Option (Option GoError → Bool)

/-- The constant `defaultInterval` of gobreaker: zero seconds. -/
def defaultInterval : Nat := 0

/-- The constant `defaultTimeout` of gobreaker: sixty seconds. -/
def defaultTimeout : Nat := 60 * 1000000000

/-- The function `defaultReadyToTrip` of gobreaker. -/
def defaultReadyToTrip (counts : Counts) : Bool :=
  decide (counts.ConsecutiveFailures > 5)

/-- The function `defaultIsSuccessful` of gobreaker. -/
def defaultIsSuccessful (err : Option GoError) : Bool :=
  err.isNone

/-- The type `gobreaker.CircuitBreaker[T]`; the state does not mention `T`.
The field `expiry` is a `time.Time`: `none` is the zero time. -/
structure CircuitBreaker where
  name : String
  maxRequests : Nat
  interval : Nat
  timeout : Nat
  readyToTrip : Counts → Bool
  isSuccessful : Option GoError → Bool
  state : State
  generation : Nat
  counts : Counts
  expiry : Option Nat

/-- The method `time.Time.Before` with a clock reading on the right: the
zero time is before every reading. -/
def timeBefore : Option Nat → Nat → Bool
  | none, _ => true
  | some t, now => decide (t < now)

/-- The method `CircuitBreaker.toNewGeneration`. -/
def CircuitBreaker.toNewGeneration (cb : CircuitBreaker) (now : Nat) : CircuitBreaker :=
  { cb with
    generation := incr64 cb.generation
    counts := cb.counts.clear
    expiry :=
      match cb.state with
      | .StateClosed => if cb.interval = 0 then none else some (now + cb.interval)
      | .StateOpen => some (now + cb.timeout)
      | .StateHalfOpen => none }

/-- The method `CircuitBreaker.setState` (without the logging callback). -/
def CircuitBreaker.setState (cb : CircuitBreaker) (state : State) (now : Nat) :
    CircuitBreaker :=
  if cb.state = state then cb
  else ({ cb with state := state } : CircuitBreaker).toNewGeneration now

/-- The method `CircuitBreaker.currentState`: the breaker after the lazy
transition, with its state and generation. -/
def CircuitBreaker.currentState (cb : CircuitBreaker) (now : Nat) :
    CircuitBreaker × State × Nat :=
  let cb1 :=
    match cb.state with
    | .StateClosed =>
        if cb.expiry.isSome && timeBefore cb.expiry now then cb.toNewGeneration now else cb
    | .StateOpen =>
        if timeBefore cb.expiry now then cb.setState .StateHalfOpen now else cb
    | .StateHalfOpen => cb
  (cb1, cb1.state, cb1.generation)

/-- The method `CircuitBreaker.beforeRequest`: the breaker afterwards, the
generation, and the admission error. -/
def CircuitBreaker.beforeRequest (cb : CircuitBreaker) (now : Nat) :
    CircuitBreaker × Nat × Option GoError :=
  let (cb1, state, generation) := cb.currentState now
  if state = .StateOpen then (cb1, generation, some .ErrOpenState)
  else if state = .StateHalfOpen ∧ cb1.counts.Requests ≥ cb1.maxRequests then
    (cb1, generation, some .ErrTooManyRequests)
  else ({ cb1 with counts := cb1.counts.onRequest }, generation, none)

/-- The method `CircuitBreaker.onSuccess`. -/
def CircuitBreaker.onSuccess (cb : CircuitBreaker) (state : State) (now : Nat) :
    CircuitBreaker :=
  match state with
  | .StateClosed => { cb with counts := cb.counts.onSuccess }
  | .StateHalfOpen =>
      let cb1 : CircuitBreaker := { cb with counts := cb.counts.onSuccess }
      if cb1.counts.ConsecutiveSuccesses ≥ cb1.maxRequests then cb1.setState .StateClosed now
      else cb1
  | .StateOpen => cb

/-- The method `CircuitBreaker.onFailure`. -/
def CircuitBreaker.onFailure (cb : CircuitBreaker) (state : State) (now : Nat) :
    CircuitBreaker :=
  match state with
  | .StateClosed =>
      let cb1 : CircuitBreaker := { cb with counts := cb.counts.onFailure }
      if cb1.readyToTrip cb1.counts then cb1.setState .StateOpen now else cb1
  | .StateHalfOpen => cb.setState .StateOpen now
  | .StateOpen => cb

/-- The method `CircuitBreaker.afterRequest`. -/
def CircuitBreaker.afterRequest (cb : CircuitBreaker) (before : Nat) (success : Bool)
    (now : Nat) : CircuitBreaker :=
  let (cb1, state, generation) := cb.currentState now
  if generation ≠ before then cb1
  else if success then cb1.onSuccess state now
  else cb1.onFailure state now

/-- The function `gobreaker.NewCircuitBreaker`, called at time `now`. -/
def NewCircuitBreaker (st : Settings) (now : Nat) : CircuitBreaker :=
  let cb : CircuitBreaker :=
    { name := st.Name
      maxRequests := if st.MaxRequests = 0 then 1 else st.MaxRequests
      interval := if st.Interval ≤ 0 then defaultInterval else st.Interval
      timeout := if st.Timeout ≤ 0 then defaultTimeout else st.Timeout
      readyToTrip := match st.ReadyToTrip with
        | none => defaultReadyToTrip
        | some f => f
      isSuccessful := match st.IsSuccessful with
        | none => defaultIsSuccessful
        | some f => f
      state := .StateClosed
      generation := 0
      counts := { Requests := 0, TotalSuccesses := 0, TotalFailures := 0,
                  ConsecutiveSuccesses := 0, ConsecutiveFailures := 0 }
      expiry := none }
  cb.toNewGeneration now

/-! ## The HTTP collaborators -/

/-- An `*http.Request` as far as the client uses it: method and URL. -/
structure Request where
  Method : String
  URL : String
  deriving DecidableEq, Repr

/-- An `*http.Response` as far as the client uses it: the status code and
what `io.ReadAll(resp.Body)` returns. -/
structure Response where
  StatusCode : Nat
  Body : Except GoError String

/-- The type `models.Car`. The client names one field, `CarUID`; the other
fields, whose declaration is in another package, are the parameter `F`, and
`default : F` is their zero value. -/
structure Car (F : Type) where
  CarUID : String
  rest : F
  deriving DecidableEq, Repr

/-- The zero value `models.Car{}`. -/
def Car.zero (F : Type) [Inhabited F] : Car F :=
  { CarUID := "", rest := default }

/-- The external collaborators of one call.
* `requestError method url` is the error `http.NewRequestWithContext` reports
  for this context, method and URL, if any;
* `Do` is `api.client.Do`;
* `decodeCar body` is `json.Unmarshal(body, &car)` into a `delivery.CarDTO`
  followed by `car.ToModel()`;
* `decodeCars body` is `json.Unmarshal(body, &cars)` into a
  `delivery.CarsDTO` followed by `cars.ToModel()` and `cars.Count`. -/
structure Env (F : Type) where
  requestError : String → String → Option GoError
  Do : Request → Except GoError Response
  decodeCar : String → Except GoError (Car F)
  decodeCars : String → Except GoError (Option (List (Car F)) × Nat)

/-- The function `http.NewRequestWithContext` with a `nil` body. -/
def NewRequestWithContext {F : Type} (env : Env F) (method url : String) :
    Except GoError Request :=
  match env.requestError method url with
  | some err => .error err
  | none => .ok { Method := method, URL := url }

/-- The constant `http.StatusOK`. -/
def StatusOK : Nat := 200

/-- The constant `http.StatusNotFound`. -/
def StatusNotFound : Nat := 404

/-- The constant `http.StatusLocked`. -/
def StatusLocked : Nat := 423

/-! ## The client -/

/-- The type `cars`: the value guarded by the `get_cars` breaker. -/
structure cars (F : Type) where
  items : Option (List (Car F))
  totalCount : Nat

/-- The type `car`: the value guarded by the `get_car` breaker. -/
structure car (F : Type) where
  item : Car F
  found : Bool

instance {F : Type} : Inhabited (cars F) := ⟨{ items := none, totalCount := 0 }⟩

instance {F : Type} [Inhabited F] : Inhabited (car F) :=
  ⟨{ item := Car.zero F, found := false }⟩

/-- The type `CarsAPI`. The HTTP client is the `Do` of `Env`; the logger has
no effect on results. -/
structure CarsAPI where
  baseURL : String
  carsCB : CircuitBreaker
  carCB : CircuitBreaker

/-- The method `CircuitBreaker[T].Execute`. `req ()` is the guarded work with
the requests it sent; `now` is the clock reading of `beforeRequest`, `now'`
that of `afterRequest`. The work of this client does not panic, so the
`recover` branch is not modelled. -/
def CircuitBreaker.Execute {T : Type} [Inhabited T] (cb : CircuitBreaker) (now now' : Nat)
    (req : Unit → (T × Option GoError) × List Request) :
    CircuitBreaker × (T × Option GoError) × List Request :=
  match cb.beforeRequest now with
  | (cb1, _, some err) => (cb1, (default, some err), [])
  | (cb1, generation, none) =>
      match req () with
      | ((result, err), sent) =>
          (cb1.afterRequest generation (cb1.isSuccessful err) now', (result, err), sent)

/-- The constructor `New`; `maxFails` is a `uint`, converted by
`uint32(maxFails)`. The two breakers are created at `now` and `now'`. -/
def New (baseURL : String) (maxFails : Nat) (now now' : Nat) : CarsAPI :=
  { baseURL := baseURL
    carsCB := NewCircuitBreaker
      { Name := "get_cars", MaxRequests := maxFails % 2 ^ 32, Interval := 0,
        Timeout := 1000000000, ReadyToTrip := none, IsSuccessful := none } now
    carCB := NewCircuitBreaker
      { Name := "get_car", MaxRequests := maxFails % 2 ^ 32, Interval := 0,
        Timeout := 1000000000, ReadyToTrip := none, IsSuccessful := none } now' }

/-- The method `CarsAPI.HealthCheck`: the error, the client afterwards and
the requests sent. -/
def HealthCheck {F : Type} (env : Env F) (api : CarsAPI) :
    Option GoError × CarsAPI × List Request :=
  let endpoint := api.baseURL ++ "/manage/health"
  match NewRequestWithContext env "GET" endpoint with
  | .error err => (some err, api, [])
  | .ok req =>
      match env.Do req with
      | .error err => (some err, api, [req])
      | .ok resp =>
          match resp.Body with
          | .error err => (some err, api, [req])
          | .ok body =>
              if resp.StatusCode ≠ StatusOK then (some (.New body), api, [req])
              else (none, api, [req])

/-- The method `CarsAPI.getCars`: the guarded work of the list operation,
with the requests it sent. -/
def getCars {F : Type} (env : Env F) (api : CarsAPI) (offset limit : Nat) (showAll : Bool) :
    (Option (List (Car F)) × Nat × Option GoError) × List Request :=
  let endpoint := api.baseURL ++ ("/api/v1/cars?offset=" ++ toString offset ++ "&limit="
    ++ toString limit ++ "&showAll=" ++ toString showAll)
  match NewRequestWithContext env "GET" endpoint with
  | .error err => ((none, 0, some err), [])
  | .ok req =>
      match env.Do req with
      | .error err => ((none, 0, some err), [req])
      | .ok resp =>
          match resp.Body with
          | .error err => ((none, 0, some err), [req])
          | .ok body =>
              if resp.StatusCode ≠ StatusOK then ((none, 0, some (.New body)), [req])
              else
                match env.decodeCars body with
                | .error err => ((none, 0, some err), [req])
                | .ok (items, count) => ((items, count, none), [req])

/-- The method `CarsAPI.GetCars`: the result, the client afterwards and the
requests sent. -/
def GetCars {F : Type} (env : Env F) (api : CarsAPI) (now now' : Nat)
    (offset limit : Nat) (showAll : Bool) :
    (Option (List (Car F)) × Nat × Option GoError) × CarsAPI × List Request :=
  match api.carsCB.Execute now now' (fun _ =>
      match getCars env api offset limit showAll with
      | ((items, totalCount, err), sent) =>
          ((({ items := items, totalCount := totalCount } : cars F), err), sent)) with
  | (cb, (res, err), sent) =>
      match err with
      | some e =>
          if errorsIs e .ErrOpenState then ((some [], 0, none), { api with carsCB := cb }, sent)
          else ((none, 0, some e), { api with carsCB := cb }, sent)
      | none => ((res.items, res.totalCount, none), { api with carsCB := cb }, sent)

/-- The method `CarsAPI.getCar`: the guarded work of the get-by-id
operation, with the requests it sent. -/
def getCar {F : Type} [Inhabited F] (env : Env F) (api : CarsAPI) (carUID : String) :
    (Car F × Bool × Option GoError) × List Request :=
  let endpoint := api.baseURL ++ "/api/v1/cars/" ++ carUID
  match NewRequestWithContext env "GET" endpoint with
  | .error err => ((Car.zero F, false, some err), [])
  | .ok req =>
      match env.Do req with
      | .error err => ((Car.zero F, false, some err), [req])
      | .ok resp =>
          match resp.Body with
          | .error err => ((Car.zero F, false, some err), [req])
          | .ok body =>
              if resp.StatusCode = StatusNotFound then ((Car.zero F, false, none), [req])
              else if resp.StatusCode ≠ StatusOK then
                ((Car.zero F, false, some (.New body)), [req])
              else
                match env.decodeCar body with
                | .error err => ((Car.zero F, false, some err), [req])
                | .ok c => ((c, true, none), [req])

/-- The method `CarsAPI.GetCar`: the result, the client afterwards and the
requests sent. -/
def GetCar {F : Type} [Inhabited F] (env : Env F) (api : CarsAPI) (now now' : Nat)
    (carUID : String) : (Car F × Bool × Option GoError) × CarsAPI × List Request :=
  match api.carCB.Execute now now' (fun _ =>
      match getCar env api carUID with
      | ((item, found, err), sent) => ((({ item := item, found := found } : car F), err), sent)) with
  | (cb, (res, err), sent) =>
      match err with
      | some e =>
          if errorsIs e .ErrOpenState then
            (({ CarUID := carUID, rest := default }, true, none), { api with carCB := cb }, sent)
          else ((Car.zero F, false, some e), { api with carCB := cb }, sent)
      | none => ((res.item, res.found, none), { api with carCB := cb }, sent)

/-- The method `CarsAPI.LockCar`: the result `(res, found, success, err)`,
the client afterwards and the requests sent. -/
def LockCar {F : Type} [Inhabited F] (env : Env F) (api : CarsAPI) (carUID : String) :
    (Car F × Bool × Bool × Option GoError) × CarsAPI × List Request :=
  let endpoint := api.baseURL ++ "/api/v1/cars/" ++ carUID ++ "/lock"
  match NewRequestWithContext env "POST" endpoint with
  | .error err => ((Car.zero F, false, false, some err), api, [])
  | .ok req =>
      match env.Do req with
      | .error err => ((Car.zero F, false, false, some err), api, [req])
      | .ok resp =>
          match resp.Body with
          | .error err => ((Car.zero F, false, false, some err), api, [req])
          | .ok body =>
              if resp.StatusCode = StatusNotFound then
                ((Car.zero F, false, false, none), api, [req])
              else if resp.StatusCode = StatusLocked then
                ((Car.zero F, true, false, none), api, [req])
              else if resp.StatusCode ≠ StatusOK then
                ((Car.zero F, false, false, some (.New body)), api, [req])
              else
                match env.decodeCar body with
                | .error err => ((Car.zero F, false, false, some err), api, [req])
                | .ok c => ((c, true, true, none), api, [req])

/-- The method `CarsAPI.UnlockCar`: the error, the client afterwards and the
requests sent. -/
def UnlockCar {F : Type} (env : Env F) (api : CarsAPI) (carUID : String) :
    Option GoError × CarsAPI × List Request :=
  let endpoint := api.baseURL ++ "/api/v1/cars/" ++ carUID ++ "/lock"
  match NewRequestWithContext env "DELETE" endpoint with
  | .error err => (some err, api, [])
  | .ok req =>
      match env.Do req with
      | .error err => (some err, api, [req])
      | .ok resp =>
          match resp.Body with
          | .error err => (some err, api, [req])
          | .ok body =>
              if resp.StatusCode ≠ StatusOK then (some (.New body), api, [req])
              else (none, api, [req])

/-! ## Predicates and scenarios used by the statements -/

/-- The request was constructed and the transport answered it with `status`
and a readable `body`. -/
def Answers {F : Type} (env : Env F) (method url : String) (status : Nat) (body : String) :
    Prop :=
  env.requestError method url = none ∧
    env.Do { Method := method, URL := url } = .ok { StatusCode := status, Body := .ok body }

/-- A sample environment whose transport fails with `err` on every request. -/
def envTransportError (err : GoError) : Env Unit :=
  { requestError := fun _ _ => none
    Do := fun _ => .error err
    decodeCar := fun _ => .error (.New "unexpected end of JSON input")
    decodeCars := fun _ => .error (.New "unexpected end of JSON input") }

/-- A sample environment whose transport answers every request with `status`
and `body`, and whose decoders reject the empty body the way
`json.Unmarshal` does and decode every other body to a fixed value. -/
def envStatus (status : Nat) (body : String) : Env Unit :=
  { requestError := fun _ _ => none
    Do := fun _ => .ok { StatusCode := status, Body := .ok body }
    decodeCar := fun b =>
      if b = "" then .error (.New "unexpected end of JSON input")
      else .ok { CarUID := "c-1", rest := () }
    decodeCars := fun b =>
      if b = "" then .error (.New "unexpected end of JSON input")
      else .ok (some [{ CarUID := "c-1", rest := () }], 1) }

/-- The client after `n` list calls and `n` get-by-id calls in a row, call
`k` made at time `10 * k`, all of which fail in the transport. -/
def afterFailures (api : CarsAPI) : Nat → CarsAPI
  | 0 => api
  | n + 1 =>
      let api1 := (GetCars (envTransportError (.New "connection refused"))
        (afterFailures api n) (10 * n) (10 * n + 1) 0 10 true).2.1
      (GetCar (envTransportError (.New "connection refused")) api1
        (10 * n + 2) (10 * n + 3) "c-1").2.1

/-- A client built with `maxFails = 1` whose two breakers have been tripped
by six failed calls each; they are Open until `1000000051` and
`1000000053`. -/
def tripped : CarsAPI := afterFailures (New "http://cars" 1 0 0) 6

/-- The tripped client two seconds later, while one caller of each guarded
operation has been admitted as the Half-Open trial call and has not yet
returned. -/
def probing : CarsAPI :=
  { tripped with
    carsCB := (tripped.carsCB.beforeRequest 2000000000).1
    carCB := (tripped.carCB.beforeRequest 2000000000).1 }

/-- A transport error that wraps gobreaker's sentinel: what `client.Do`
returns when the round tripper of the injected `*http.Client` is itself
guarded by a breaker that is open. -/
def wrappedOpenState : GoError :=
  .Wrap "Get http://cars: circuit breaker is open" .ErrOpenState

/-- A number of get-by-id calls made one after the other, each with its own
environment, clock readings and identifier: the client afterwards and the
results in order. -/
def GetCarSeq {F : Type} [Inhabited F] (api : CarsAPI) :
    List (Env F × Nat × Nat × String) → CarsAPI × List (Car F × Bool × Option GoError)
  | [] => (api, [])
  | (env, now, now', carUID) :: rest =>
      let r := GetCar env api now now' carUID
      let rs := GetCarSeq r.2.1 rest
      (rs.1, r.1 :: rs.2)

/-- Seven get-by-id calls for `c-1`, call `k` made at time `10 * k`, each
answered by the transport with 404 and the body `no such car`. -/
def sevenNotFound : List (Env Unit × Nat × Nat × String) :=
  (List.range 7).map fun k => (envStatus 404 "no such car", 10 * k, 10 * k + 1, "c-1")

/-- A Closed breaker without expiry, with gobreaker's default success test,
no recorded failure and `k` recorded successes (as a `uint32`). -/
def ClosedWithSuccesses (k : Nat) (cb : CircuitBreaker) : Prop :=
  cb.state = .StateClosed ∧ cb.expiry = none ∧ cb.isSuccessful = defaultIsSuccessful ∧
    cb.counts.TotalFailures = 0 ∧ cb.counts.ConsecutiveFailures = 0 ∧
    cb.counts.TotalSuccesses = k % 2 ^ 32

/-- A Closed breaker without expiry, with gobreaker's default trip and
success tests and `n` consecutive failures recorded. -/
def ClosedWithFailures (n : Nat) (cb : CircuitBreaker) : Prop :=
  cb.state = .StateClosed ∧ cb.expiry = none ∧ cb.readyToTrip = defaultReadyToTrip ∧
    cb.isSuccessful = defaultIsSuccessful ∧ cb.counts.ConsecutiveFailures = n

/-! ## Lemmas on the breaker -/

/-- The breaker turns a call away with `ErrOpenState` exactly when it is Open
and its expiry is not before the clock reading. -/
theorem beforeRequest_ErrOpenState_iff (cb : CircuitBreaker) (now : Nat) :
    (cb.beforeRequest now).2.2 = some .ErrOpenState ↔
      cb.state = .StateOpen ∧ timeBefore cb.expiry now = false := by
  unfold CircuitBreaker.beforeRequest CircuitBreaker.currentState
  rcases hs : cb.state with _ | _ | _
  · by_cases h : (cb.expiry.isSome && timeBefore cb.expiry now) = true
    · simp [h, CircuitBreaker.toNewGeneration, hs]
    · simp [h, hs]
  · simp [hs]
    split <;> simp
  · by_cases h : timeBefore cb.expiry now = true
    · simp [h, CircuitBreaker.setState, CircuitBreaker.toNewGeneration, hs]
      split <;> simp
    · simp [h, hs]

/-- When `beforeRequest` reports an error, `Execute` returns the zero value
and that error, and the work is not run. -/
theorem Execute_rejected {T : Type} [Inhabited T] (cb : CircuitBreaker) (now now' : Nat)
    (req : Unit → (T × Option GoError) × List Request) (err : GoError)
    (h : (cb.beforeRequest now).2.2 = some err) :
    cb.Execute now now' req = ((cb.beforeRequest now).1, (default, some err), []) := by
  unfold CircuitBreaker.Execute
  rcases hb : cb.beforeRequest now with ⟨cb1, g, e⟩
  rw [hb] at h
  simp only at h
  subst h
  rfl

/-- When `beforeRequest` admits the call, `Execute` runs the work once,
reports its outcome to `afterRequest` and returns its result unchanged. -/
theorem Execute_admitted {T : Type} [Inhabited T] (cb : CircuitBreaker) (now now' : Nat)
    (req : Unit → (T × Option GoError) × List Request)
    (h : (cb.beforeRequest now).2.2 = none) :
    cb.Execute now now' req =
      (((cb.beforeRequest now).1).afterRequest (cb.beforeRequest now).2.1
          (((cb.beforeRequest now).1).isSuccessful (req ()).1.2) now',
        (req ()).1, (req ()).2) := by
  unfold CircuitBreaker.Execute
  rcases hb : cb.beforeRequest now with ⟨cb1, g, e⟩
  rw [hb] at h
  simp only at h
  subst h
  rfl

/-! ## Rejected calls -/

/-- C1: when the `get_cars` breaker rejects the call with `ErrOpenState`,
`Execute` returns that error without running the work, and `GetCars` returns
the empty non-nil collection, total count 0 and a nil error, having sent no
request to the transport - for every offset, limit and showAll. -/
theorem GetCars_rejected_fallback {F : Type} (env : Env F) (api : CarsAPI) (now now' : Nat)
    (offset limit : Nat) (showAll : Bool)
    (h : (api.carsCB.beforeRequest now).2.2 = some .ErrOpenState) :
    (GetCars env api now now' offset limit showAll).1 = (some [], 0, none) ∧
      ((GetCars env api now now' offset limit showAll).1.1.map List.length = some 0) ∧
      (GetCars env api now now' offset limit showAll).2.2 = [] := by
  unfold GetCars
  rw [Execute_rejected _ _ _ _ _ h]
  simp [errorsIs]

/-- Concrete check of C1 on the tripped client, half a second after the first
failure. -/
theorem GetCars_rejected_fallback_witness :
    (GetCars (envStatus 200 "[]") tripped 500000000 500000001 0 10 true).1
        = (some [], 0, none) ∧
      ((GetCars (envStatus 200 "[]") tripped 500000000 500000001 0 10 true).1.1.map
        List.length = some 0) ∧
      (GetCars (envStatus 200 "[]") tripped 500000000 500000001 0 10 true).2.2 = [] :=
  GetCars_rejected_fallback (envStatus 200 "[]") tripped 500000000 500000001 0 10 true
    (by decide)

/-- C2: when the `get_car` breaker rejects the call with `ErrOpenState`,
`GetCar` returns found = true, a nil error and a record whose `CarUID` is the
requested identifier and whose other fields are zero, having sent no request
to the transport - for every identifier. -/
theorem GetCar_rejected_fallback {F : Type} [Inhabited F] (env : Env F) (api : CarsAPI)
    (now now' : Nat) (carUID : String)
    (h : (api.carCB.beforeRequest now).2.2 = some .ErrOpenState) :
    (GetCar env api now now' carUID).1 = ({ CarUID := carUID, rest := default }, true, none) ∧
      (GetCar env api now now' carUID).1.1.CarUID = carUID ∧
      (GetCar env api now now' carUID).1.1.rest = (Car.zero F).rest ∧
      (GetCar env api now now' carUID).2.2 = [] := by
  unfold GetCar
  rw [Execute_rejected _ _ _ _ _ h]
  simp [errorsIs, Car.zero]

/-- Concrete check of C2 on the tripped client with the identifier
`abc123`. -/
theorem GetCar_rejected_fallback_witness :
    (GetCar (envStatus 200 "x") tripped 500000000 500000001 "abc123").1
        = ({ CarUID := "abc123", rest := default }, true, none) ∧
      (GetCar (envStatus 200 "x") tripped 500000000 500000001 "abc123").1.1.CarUID
        = "abc123" ∧
      (GetCar (envStatus 200 "x") tripped 500000000 500000001 "abc123").1.1.rest
        = (Car.zero Unit).rest ∧
      (GetCar (envStatus 200 "x") tripped 500000000 500000001 "abc123").2.2 = [] :=
  GetCar_rejected_fallback (envStatus 200 "x") tripped 500000000 500000001 "abc123"
    (by decide)

/-! ## Failures of the guarded work -/

/-- C3, as stated, fails: on a fresh client whose breakers admit the call,
the guarded work contacts the transport, which fails with an error that
wraps `ErrOpenState`; the work returns that error, yet `GetCars` and `GetCar`
return their fallback values with a nil error. -/
theorem work_error_wrapping_ErrOpenState_is_masked :
    ((New "http://cars" 1 0 0).carsCB.beforeRequest 5).2.2 = none ∧
      ((New "http://cars" 1 0 0).carCB.beforeRequest 5).2.2 = none ∧
      (getCars (envTransportError wrappedOpenState) (New "http://cars" 1 0 0) 0 10 true).1
        = (none, 0, some wrappedOpenState) ∧
      (getCar (envTransportError wrappedOpenState) (New "http://cars" 1 0 0) "c-1").1
        = (Car.zero Unit, false, some wrappedOpenState) ∧
      (GetCars (envTransportError wrappedOpenState) (New "http://cars" 1 0 0) 5 6 0 10
        true).1 = (some [], 0, none) ∧
      (GetCars (envTransportError wrappedOpenState) (New "http://cars" 1 0 0) 5 6 0 10
        true).2.2.length = 1 ∧
      (GetCar (envTransportError wrappedOpenState) (New "http://cars" 1 0 0) 5 6 "c-1").1
        = ({ CarUID := "c-1", rest := () }, true, none) := by
  decide

/-- C3, amended: when the breaker admits the call and the guarded work
returns an error `e` that does not match `ErrOpenState` under `errors.Is`,
`GetCars` returns `(nil, 0, e)` and `GetCar` returns `(zero Car, false, e)`,
with `e` unchanged. -/
theorem work_error_propagates {F : Type} [Inhabited F] (env : Env F) (api : CarsAPI)
    (now now' offset limit : Nat) (showAll : Bool) (carUID : String) (e : GoError)
    (hIs : errorsIs e .ErrOpenState = false) :
    ((api.carsCB.beforeRequest now).2.2 = none →
        (getCars env api offset limit showAll).1.2.2 = some e →
        (GetCars env api now now' offset limit showAll).1 = (none, 0, some e)) ∧
      ((api.carCB.beforeRequest now).2.2 = none →
        (getCar env api carUID).1.2.2 = some e →
        (GetCar env api now now' carUID).1 = (Car.zero F, false, some e)) := by
  constructor
  · intro hadm hwork
    unfold GetCars
    rw [Execute_admitted _ _ _ _ hadm]
    rcases hg : getCars env api offset limit showAll with ⟨⟨items, total, err⟩, sent⟩
    rw [hg] at hwork
    simp only at hwork
    subst hwork
    simp [hIs]
  · intro hadm hwork
    unfold GetCar
    rw [Execute_admitted _ _ _ _ hadm]
    rcases hg : getCar env api carUID with ⟨⟨item, found, err⟩, sent⟩
    rw [hg] at hwork
    simp only at hwork
    subst hwork
    simp [hIs]

/-- Concrete check of the amended C3: a refused connection reaches the
caller of either guarded operation unchanged. -/
theorem work_error_propagates_witness :
    errorsIs (.New "connection refused") .ErrOpenState = false ∧
      (GetCars (envTransportError (.New "connection refused")) (New "http://cars" 1 0 0)
        5 6 0 10 true).1 = (none, 0, some (.New "connection refused")) ∧
      (GetCar (envTransportError (.New "connection refused")) (New "http://cars" 1 0 0)
        5 6 "c-1").1 = (Car.zero Unit, false, some (.New "connection refused")) :=
  ⟨by decide,
    (work_error_propagates (envTransportError (.New "connection refused"))
      (New "http://cars" 1 0 0) 5 6 0 10 true "c-1" (.New "connection refused")
      (by decide)).1 (by decide) (by decide),
    (work_error_propagates (envTransportError (.New "connection refused"))
      (New "http://cars" 1 0 0) 5 6 0 10 true "c-1" (.New "connection refused")
      (by decide)).2 (by decide) (by decide)⟩

/-! ## The failure threshold -/

/-- Both breakers of a new client are Closed with no failure recorded. -/
theorem New_closed (baseURL : String) (maxFails t0 t0' : Nat) :
    ClosedWithFailures 0 (New baseURL maxFails t0 t0').carsCB ∧
      ClosedWithFailures 0 (New baseURL maxFails t0 t0').carCB := by
  simp [ClosedWithFailures, New, NewCircuitBreaker, CircuitBreaker.toNewGeneration,
    Counts.clear, defaultInterval]

/-- A failed call through a Closed breaker with gobreaker's defaults: the
result is the work's; up to the fifth consecutive failure the breaker stays
Closed, and the sixth opens it. -/
theorem Execute_closed_failure {T : Type} [Inhabited T] (n : Nat) (cb : CircuitBreaker)
    (now now' : Nat) (req : Unit → (T × Option GoError) × List Request) (e : GoError)
    (h : ClosedWithFailures n cb) (hreq : (req ()).1.2 = some e) :
    (cb.Execute now now' req).2 = req () ∧
      (n < 5 → ClosedWithFailures (n + 1) (cb.Execute now now' req).1) ∧
      (n = 5 → (cb.Execute now now' req).1.state = .StateOpen ∧
        (cb.Execute now now' req).1.expiry = some (now' + cb.timeout)) := by
  obtain ⟨hs, he, ht, hi, hc⟩ := h
  rcases hr : req () with ⟨⟨result, err⟩, sent⟩
  rw [hr] at hreq
  simp only at hreq
  subst hreq
  simp only [CircuitBreaker.Execute, CircuitBreaker.beforeRequest,
    CircuitBreaker.currentState, hs, he, hr]
  refine ⟨by simp [hs], ?_, ?_⟩
  · intro hn
    have h7 : incr32 n = n + 1 := by
      simp only [incr32]
      omega
    have h8 : ¬ (5 < n + 1) := by omega
    simp [hi, ht, defaultIsSuccessful, defaultReadyToTrip, CircuitBreaker.afterRequest,
      CircuitBreaker.currentState, hs, he, CircuitBreaker.onFailure, ClosedWithFailures,
      Counts.onRequest, Counts.onFailure, hc, h7, h8]
  · intro hn
    subst hn
    simp [hi, ht, defaultIsSuccessful, defaultReadyToTrip, CircuitBreaker.afterRequest,
      CircuitBreaker.currentState, hs, he, CircuitBreaker.onFailure,
      Counts.onRequest, Counts.onFailure, incr32, CircuitBreaker.setState,
      CircuitBreaker.toNewGeneration, hc]

/-- What `GetCars` changes in the client: the `get_cars` breaker only. -/
theorem GetCars_frame {F : Type} (env : Env F) (api : CarsAPI) (now now' : Nat)
    (offset limit : Nat) (showAll : Bool) :
    (GetCars env api now now' offset limit showAll).2.1.baseURL = api.baseURL ∧
      (GetCars env api now now' offset limit showAll).2.1.carCB = api.carCB ∧
      (GetCars env api now now' offset limit showAll).2.1.carsCB
        = (api.carsCB.Execute now now' (fun _ =>
            match getCars env api offset limit showAll with
            | ((items, totalCount, err), sent) =>
                ((({ items := items, totalCount := totalCount } : cars F), err), sent))).1 := by
  unfold GetCars
  split
  rename_i heq
  rw [heq]
  split <;> [split; skip] <;> exact ⟨rfl, rfl, rfl⟩

/-- What `GetCar` changes in the client: the `get_car` breaker only. -/
theorem GetCar_frame {F : Type} [Inhabited F] (env : Env F) (api : CarsAPI) (now now' : Nat)
    (carUID : String) :
    (GetCar env api now now' carUID).2.1.baseURL = api.baseURL ∧
      (GetCar env api now now' carUID).2.1.carsCB = api.carsCB ∧
      (GetCar env api now now' carUID).2.1.carCB
        = (api.carCB.Execute now now' (fun _ =>
            match getCar env api carUID with
            | ((item, found, err), sent) =>
                ((({ item := item, found := found } : car F), err), sent))).1 := by
  unfold GetCar
  split
  rename_i heq
  rw [heq]
  split <;> [split; skip] <;> exact ⟨rfl, rfl, rfl⟩

/-- One more round of failed calls. -/
theorem afterFailures_succ (api : CarsAPI) (n : Nat) :
    afterFailures api (n + 1)
      = (GetCar (envTransportError (.New "connection refused"))
          (GetCars (envTransportError (.New "connection refused"))
            (afterFailures api n) (10 * n) (10 * n + 1) 0 10 true).2.1
          (10 * n + 2) (10 * n + 3) "c-1").2.1 := rfl

/-- Failed calls leave the base address alone. -/
theorem afterFailures_baseURL (api : CarsAPI) :
    ∀ n, (afterFailures api n).baseURL = api.baseURL
  | 0 => rfl
  | n + 1 => by
      rw [afterFailures_succ, (GetCar_frame _ _ _ _ _).1, (GetCars_frame _ _ _ _ _ _ _).1]
      exact afterFailures_baseURL api n

/-- Up to five rounds of failed calls leave both breakers Closed. -/
theorem afterFailures_closed (api : CarsAPI) (h : ClosedWithFailures 0 api.carsCB)
    (h' : ClosedWithFailures 0 api.carCB) :
    ∀ n, n ≤ 5 → ClosedWithFailures n (afterFailures api n).carsCB ∧
      ClosedWithFailures n (afterFailures api n).carCB
  | 0, _ => ⟨h, h'⟩
  | n + 1, hn => by
      obtain ⟨ih, ih'⟩ := afterFailures_closed api h h' n (by omega)
      rw [afterFailures_succ]
      obtain ⟨_, g2, g3⟩ := GetCars_frame (envTransportError (.New "connection refused"))
        (afterFailures api n) (10 * n) (10 * n + 1) 0 10 true
      obtain ⟨_, f2, f3⟩ := GetCar_frame (envTransportError (.New "connection refused"))
        (GetCars (envTransportError (.New "connection refused"))
          (afterFailures api n) (10 * n) (10 * n + 1) 0 10 true).2.1
        (10 * n + 2) (10 * n + 3) "c-1"
      rw [f2, f3, g2, g3]
      constructor
      · exact (Execute_closed_failure n _ _ _ _ (.New "connection refused") ih
          (by simp [getCars, NewRequestWithContext, envTransportError])).2.1 (by omega)
      · exact (Execute_closed_failure n _ _ _ _ (.New "connection refused") ih'
          (by simp [getCar, NewRequestWithContext, envTransportError])).2.1 (by omega)

/-- The sixth round of failed calls opens both breakers. -/
theorem afterFailures_six_open (api : CarsAPI) (h : ClosedWithFailures 0 api.carsCB)
    (h' : ClosedWithFailures 0 api.carCB) :
    (afterFailures api 6).carsCB.state = .StateOpen ∧
      (afterFailures api 6).carCB.state = .StateOpen := by
  obtain ⟨ih, ih'⟩ := afterFailures_closed api h h' 5 (by omega)
  rw [afterFailures_succ]
  obtain ⟨_, g2, g3⟩ := GetCars_frame (envTransportError (.New "connection refused"))
    (afterFailures api 5) (10 * 5) (10 * 5 + 1) 0 10 true
  obtain ⟨_, f2, f3⟩ := GetCar_frame (envTransportError (.New "connection refused"))
    (GetCars (envTransportError (.New "connection refused"))
      (afterFailures api 5) (10 * 5) (10 * 5 + 1) 0 10 true).2.1
    (10 * 5 + 2) (10 * 5 + 3) "c-1"
  rw [f2, f3, g2, g3]
  constructor
  · exact ((Execute_closed_failure 5 _ _ _ _ (.New "connection refused") ih
      (by simp [getCars, NewRequestWithContext, envTransportError])).2.2 rfl).1
  · exact ((Execute_closed_failure 5 _ _ _ _ (.New "connection refused") ih'
      (by simp [getCar, NewRequestWithContext, envTransportError])).2.2 rfl).1

/-- A list call through a Closed breaker sends its request. -/
theorem GetCars_closed_contacts_transport (n : Nat) (api : CarsAPI) (now now' : Nat)
    (e : GoError) (offset limit : Nat) (showAll : Bool)
    (h : ClosedWithFailures n api.carsCB) :
    (GetCars (envTransportError e) api now now' offset limit showAll).2.2
      = [{ Method := "GET",
           URL := api.baseURL ++ ("/api/v1/cars?offset=" ++ toString offset ++ "&limit="
             ++ toString limit ++ "&showAll=" ++ toString showAll) }] := by
  obtain ⟨hs, he, _, _, _⟩ := h
  have hadm : (api.carsCB.beforeRequest now).2.2 = none := by
    simp [CircuitBreaker.beforeRequest, CircuitBreaker.currentState, hs, he]
  unfold GetCars
  rw [Execute_admitted _ _ _ _ hadm]
  simp only [getCars, NewRequestWithContext, envTransportError]
  split <;> rfl

/-- C4 fails on the code: whatever value is passed to `New` as `maxFails`
(so also for `maxFails = T` with `T` from 1 to 5), after `T <= 5` consecutive
failed calls of each guarded operation both breakers are still Closed and
the next list call, made at any time, is handed to the transport; both
breakers are Open only after the sixth consecutive failure. -/
theorem breaker_trips_after_six_not_maxFails (baseURL : String) (maxFails t0 t0' : Nat)
    (T : Fin 6) (now now' : Nat) :
    (afterFailures (New baseURL maxFails t0 t0') T).carsCB.state = .StateClosed ∧
      (afterFailures (New baseURL maxFails t0 t0') T).carCB.state = .StateClosed ∧
      (GetCars (envTransportError (.New "connection refused"))
        (afterFailures (New baseURL maxFails t0 t0') T) now now' 0 10 true).2.2
        = [{ Method := "GET",
             URL := baseURL ++ "/api/v1/cars?offset=0&limit=10&showAll=true" }] ∧
      (afterFailures (New baseURL maxFails t0 t0') 6).carsCB.state = .StateOpen ∧
      (afterFailures (New baseURL maxFails t0 t0') 6).carCB.state = .StateOpen := by
  obtain ⟨h, h'⟩ := New_closed baseURL maxFails t0 t0'
  obtain ⟨hc, hc'⟩ := afterFailures_closed _ h h' T (by omega)
  refine ⟨hc.1, hc'.1, ?_, afterFailures_six_open _ h h'⟩
  have hb : (afterFailures (New baseURL maxFails t0 t0') T).baseURL = baseURL :=
    afterFailures_baseURL _ _
  rw [GetCars_closed_contacts_transport T _ now now' _ 0 10 true hc, hb]
  rfl

/-! ## Not-found answers -/

/-- The `get_car` breaker of a new client is Closed with nothing recorded. -/
theorem New_carCB_closed (baseURL : String) (maxFails t0 t0' : Nat) :
    ClosedWithSuccesses 0 (New baseURL maxFails t0 t0').carCB := by
  simp [ClosedWithSuccesses, New, NewCircuitBreaker, CircuitBreaker.toNewGeneration,
    Counts.clear, defaultInterval]

/-- A successful call through a Closed breaker records one more success and
leaves the breaker Closed. -/
theorem Execute_closed_success {T : Type} [Inhabited T] (k : Nat) (cb : CircuitBreaker)
    (now now' : Nat) (req : Unit → (T × Option GoError) × List Request)
    (h : ClosedWithSuccesses k cb) (hreq : (req ()).1.2 = none) :
    ClosedWithSuccesses (k + 1) (cb.Execute now now' req).1 ∧
      (cb.Execute now now' req).2 = req () := by
  obtain ⟨hs, he, hi, hf, hc, ht⟩ := h
  rcases hr : req () with ⟨⟨result, err⟩, sent⟩
  rw [hr] at hreq
  simp only at hreq
  subst hreq
  simp only [CircuitBreaker.Execute, CircuitBreaker.beforeRequest,
    CircuitBreaker.currentState, hs, he, hr]
  simp [hi, defaultIsSuccessful, CircuitBreaker.afterRequest, CircuitBreaker.currentState,
    hs, he, CircuitBreaker.onSuccess, ClosedWithSuccesses, Counts.onRequest,
    Counts.onSuccess, hf, ht, incr32]

/-- The guarded work of get-by-id on a 404 answer. -/
theorem getCar_not_found {F : Type} [Inhabited F] (env : Env F) (api : CarsAPI)
    (carUID body : String)
    (h : Answers env "GET" (api.baseURL ++ "/api/v1/cars/" ++ carUID) StatusNotFound body) :
    getCar env api carUID = ((Car.zero F, false, none),
      [{ Method := "GET", URL := api.baseURL ++ "/api/v1/cars/" ++ carUID }]) := by
  obtain ⟨hreq, hdo⟩ := h
  simp [getCar, NewRequestWithContext, hreq, hdo]

/-- The operation `GetCar` leaves the base address alone. -/
theorem GetCar_baseURL {F : Type} [Inhabited F] (env : Env F) (api : CarsAPI)
    (now now' : Nat) (carUID : String) :
    (GetCar env api now now' carUID).2.1.baseURL = api.baseURL := by
  unfold GetCar
  split
  split <;> [split; skip] <;> rfl

/-- Not-found answers in a row, from any Closed breaker without failures. -/
theorem GetCarSeq_not_found {F : Type} [Inhabited F]
    (calls : List (Env F × Nat × Nat × String)) :
    ∀ (k : Nat) (api : CarsAPI), ClosedWithSuccesses k api.carCB →
      (∀ c ∈ calls, ∃ body,
        Answers c.1 "GET" (api.baseURL ++ "/api/v1/cars/" ++ c.2.2.2) StatusNotFound body) →
      ClosedWithSuccesses (k + calls.length) (GetCarSeq api calls).1.carCB ∧
        (GetCarSeq api calls).2 = List.replicate calls.length (Car.zero F, false, none) := by
  induction calls with
  | nil => intro k api h _; exact ⟨h, rfl⟩
  | cons c rest ih =>
      intro k api h hall
      obtain ⟨env, now, now', carUID⟩ := c
      obtain ⟨body, hans⟩ := hall (env, now, now', carUID) (List.mem_cons_self _ _)
      have hwork := getCar_not_found env api carUID body hans
      have hstep : ClosedWithSuccesses (k + 1) (GetCar env api now now' carUID).2.1.carCB ∧
          (GetCar env api now now' carUID).1 = (Car.zero F, false, none) := by
        have hx := Execute_closed_success k api.carCB now now'
          (fun _ => match getCar env api carUID with
            | ((item, found, err), sent) =>
                ((({ item := item, found := found } : car F), err), sent))
          h (by simp [hwork])
        unfold GetCar
        rcases he : api.carCB.Execute now now' (fun _ => match getCar env api carUID with
            | ((item, found, err), sent) =>
                ((({ item := item, found := found } : car F), err), sent))
          with ⟨cb, ⟨res, err⟩, sent⟩
        rw [he] at hx
        simp only [hwork] at hx
        obtain ⟨hx1, hx2⟩ := hx
        simp only [Prod.mk.injEq] at hx2
        obtain ⟨⟨hres, herr⟩, _⟩ := hx2
        subst hres herr
        exact ⟨hx1, rfl⟩
      have hb := GetCar_baseURL env api now now' carUID
      have := ih (k + 1) (GetCar env api now now' carUID).2.1 hstep.1
        (fun c hc => by rw [hb]; exact hall c (List.mem_cons_of_mem _ hc))
      refine ⟨?_, ?_⟩
      · have h1 := this.1
        simp only [GetCarSeq, List.length_cons]
        rw [show k + (rest.length + 1) = k + 1 + rest.length by omega]
        exact h1
      · simp only [GetCarSeq, List.length_cons, List.replicate_succ]
        rw [this.2, hstep.2]

/-- C5: when the transport answers the get-by-id request with 404 and a
readable body, the guarded work `getCar` returns (zero Car, false, nil);
the breaker counts it as a success: over any number of consecutive calls
answered so, starting from the client `New` builds, `GetCar` returns
(zero Car, false, nil) every time, and after every one of them the `get_car`
breaker is Closed with no failure recorded and one success per call. -/
theorem not_found_keeps_breaker_closed {F : Type} [Inhabited F] (baseURL : String)
    (maxFails t0 t0' : Nat) (calls : List (Env F × Nat × Nat × String))
    (h : ∀ c ∈ calls, ∃ body,
      Answers c.1 "GET" (baseURL ++ "/api/v1/cars/" ++ c.2.2.2) StatusNotFound body) :
    (∀ c ∈ calls, ∀ api : CarsAPI, api.baseURL = baseURL →
        (getCar c.1 api c.2.2.2).1 = (Car.zero F, false, none)) ∧
      (GetCarSeq (New baseURL maxFails t0 t0') calls).2
        = List.replicate calls.length (Car.zero F, false, none) ∧
      ∀ n, (GetCarSeq (New baseURL maxFails t0 t0') (calls.take n)).1.carCB.state
            = .StateClosed ∧
          (GetCarSeq (New baseURL maxFails t0 t0') (calls.take n)).1.carCB.counts.TotalFailures
            = 0 ∧
          (GetCarSeq (New baseURL maxFails t0 t0')
            (calls.take n)).1.carCB.counts.ConsecutiveFailures = 0 ∧
          (GetCarSeq (New baseURL maxFails t0 t0') (calls.take n)).1.carCB.counts.TotalSuccesses
            = (calls.take n).length % 2 ^ 32 := by
  refine ⟨?_, ?_, ?_⟩
  · intro c hc api hapi
    obtain ⟨body, hb⟩ := h c hc
    rw [← hapi] at hb
    rw [getCar_not_found c.1 api c.2.2.2 body hb]
  · exact (GetCarSeq_not_found calls 0 (New baseURL maxFails t0 t0')
      (New_carCB_closed baseURL maxFails t0 t0') h).2
  · intro n
    have := (GetCarSeq_not_found (calls.take n) 0 (New baseURL maxFails t0 t0')
      (New_carCB_closed baseURL maxFails t0 t0')
      (fun c hc => h c (List.mem_of_mem_take hc))).1
    obtain ⟨hs, _, _, hf, hc, ht⟩ := this
    rw [Nat.zero_add] at ht
    exact ⟨hs, hf, hc, ht⟩

/-- Concrete check of C5: seven not-found answers in a row, more than the
six failures that trip a breaker, on a client built with `maxFails = 1`. -/
theorem not_found_keeps_breaker_closed_witness :
    (GetCarSeq (New "http://cars" 1 0 0) sevenNotFound).2
        = List.replicate 7 (Car.zero Unit, false, none) ∧
      (GetCarSeq (New "http://cars" 1 0 0) sevenNotFound).1.carCB.state = .StateClosed ∧
      (GetCarSeq (New "http://cars" 1 0 0) sevenNotFound).1.carCB.counts.TotalFailures = 0 :=
  have h := not_found_keeps_breaker_closed "http://cars" 1 0 0 sevenNotFound
    (fun c hc => by
      simp only [sevenNotFound, List.mem_map] at hc
      obtain ⟨k, _, rfl⟩ := hc
      exact ⟨"no such car", rfl, rfl⟩)
  ⟨h.2.1, (h.2.2 7).1, (h.2.2 7).2.1⟩

/-! ## Classification of responses by the guarded work -/

/-- C7, as stated, fails: for a 200 answer whose readable body (here the
empty body) does not decode, `LockCar` returns the zero Car, found = false,
success = false and the decoder's error, which is none of the four outcomes:
the error is not nil, and its message is not the body text. -/
theorem LockCar_undecodable_body_is_fifth_outcome :
    (LockCar (envStatus 200 "") (New "http://cars" 1 0 0) "c-1").1
        = (Car.zero Unit, false, false, some (.New "unexpected end of JSON input")) ∧
      ¬ ((LockCar (envStatus 200 "") (New "http://cars" 1 0 0) "c-1").1
            = (Car.zero Unit, false, false, none) ∨
          (LockCar (envStatus 200 "") (New "http://cars" 1 0 0) "c-1").1
            = (Car.zero Unit, true, false, none) ∨
          (LockCar (envStatus 200 "") (New "http://cars" 1 0 0) "c-1").1.2
            = (true, true, none) ∨
          ((LockCar (envStatus 200 "") (New "http://cars" 1 0 0) "c-1").1.2.1 = false ∧
            (LockCar (envStatus 200 "") (New "http://cars" 1 0 0) "c-1").1.2.2.1 = false ∧
            (LockCar (envStatus 200 "") (New "http://cars" 1 0 0) "c-1").1.2.2.2.map
              GoError.Error = some "")) := by
  decide

/-- C7, amended: when the transport answers the lock request with a readable
body, `LockCar` returns exactly one of five outcomes, chosen by the status
and, under 200, by the decoder: 404 gives (zero Car, false, false, nil); 423
gives (zero Car, true, false, nil); 200 with a decodable body gives (decoded
car, true, true, nil); 200 with an undecodable body gives (zero Car, false,
false, the decoder's error); every other status gives (zero Car, false,
false, an error whose message is the body text). In every one of them
success = true implies found = true and a nil error. -/
theorem LockCar_classification {F : Type} [Inhabited F] (env : Env F) (api : CarsAPI)
    (carUID : String) (status : Nat) (body : String)
    (h : Answers env "POST" (api.baseURL ++ "/api/v1/cars/" ++ carUID ++ "/lock") status
      body) :
    (status = StatusNotFound →
        (LockCar env api carUID).1 = (Car.zero F, false, false, none)) ∧
      (status = StatusLocked →
        (LockCar env api carUID).1 = (Car.zero F, true, false, none)) ∧
      (status = StatusOK → ∀ c, env.decodeCar body = .ok c →
        (LockCar env api carUID).1 = (c, true, true, none)) ∧
      (status = StatusOK → ∀ e, env.decodeCar body = .error e →
        (LockCar env api carUID).1 = (Car.zero F, false, false, some e)) ∧
      (status ≠ StatusNotFound → status ≠ StatusLocked → status ≠ StatusOK →
        (LockCar env api carUID).1 = (Car.zero F, false, false, some (.New body)) ∧
        (LockCar env api carUID).1.2.2.2.map GoError.Error = some body) ∧
      ((LockCar env api carUID).1.2.2.1 = true →
        (LockCar env api carUID).1.2.1 = true ∧ (LockCar env api carUID).1.2.2.2 = none) := by
  obtain ⟨hr, hd⟩ := h
  refine ⟨?_, ?_, ?_, ?_, ?_, ?_⟩
  · intro hs
    simp [LockCar, NewRequestWithContext, hr, hd, hs]
  · intro hs
    simp [LockCar, NewRequestWithContext, hr, hd, hs, StatusLocked, StatusNotFound]
  · intro hs c hc
    simp [LockCar, NewRequestWithContext, hr, hd, hs, hc, StatusLocked, StatusNotFound,
      StatusOK]
  · intro hs e he
    simp [LockCar, NewRequestWithContext, hr, hd, hs, he, StatusLocked, StatusNotFound,
      StatusOK]
  · intro h1 h2 h3
    simp [LockCar, NewRequestWithContext, hr, hd, h1, h2, h3, GoError.Error]
  · simp only [LockCar, NewRequestWithContext, hr, hd]
    by_cases h1 : status = StatusNotFound
    · simp [h1]
    · by_cases h2 : status = StatusLocked
      · simp [h1, h2, StatusLocked, StatusNotFound]
      · by_cases h3 : status = StatusOK
        · subst h3
          rcases hc : env.decodeCar body with e | c <;>
            simp [hc, StatusLocked, StatusNotFound, StatusOK]
        · simp [h1, h2, h3]

/-- Concrete check of the amended C7 with the status 423 and the body
`locked`. -/
theorem LockCar_classification_witness :
    (LockCar (envStatus 423 "locked") (New "http://cars" 1 0 0) "c-1").1
      = (Car.zero Unit, true, false, none) :=
  (LockCar_classification (envStatus 423 "locked") (New "http://cars" 1 0 0) "c-1" 423
    "locked" ⟨rfl, rfl⟩).2.1 rfl

/-- C8: `LockCar` and `UnlockCar` use no breaker. With a constructible
request, whatever the two breakers are:
* each hands exactly one request to the transport, the POST (the DELETE) for
  the lock address;
* the result is read off the transport's answer to that very request, case
  by case: a transport error or a body-read error is returned as it is; for
  `LockCar` 404 gives (zero Car, false, false, nil), 423 gives (zero Car,
  true, false, nil), 200 gives the decoded car with (true, true, nil) or the
  decoder's error, any other status an error with the body text; for
  `UnlockCar` 200 gives nil and any other status an error with the body text;
* the client is returned with both breakers as they were;
* result and requests sent are the same for any other pair of breakers, and
  the result is the same for any client and environment whose transport
  gives the same answer (and, for `LockCar`, whose decoder is the same). -/
theorem lock_unlock_bypass_breakers {F : Type} [Inhabited F] (env : Env F) (api : CarsAPI)
    (carUID : String)
    (hl : env.requestError "POST" (api.baseURL ++ "/api/v1/cars/" ++ carUID ++ "/lock")
      = none)
    (hu : env.requestError "DELETE" (api.baseURL ++ "/api/v1/cars/" ++ carUID ++ "/lock")
      = none) :
    (LockCar env api carUID).2.2
        = [{ Method := "POST", URL := api.baseURL ++ "/api/v1/cars/" ++ carUID ++ "/lock" }] ∧
      (UnlockCar env api carUID).2.2
        = [{ Method := "DELETE",
             URL := api.baseURL ++ "/api/v1/cars/" ++ carUID ++ "/lock" }] ∧
      (LockCar env api carUID).2.1 = api ∧
      (UnlockCar env api carUID).2.1 = api ∧
      (∀ cb1 cb2 : CircuitBreaker,
        (LockCar env { api with carsCB := cb1, carCB := cb2 } carUID).1
            = (LockCar env api carUID).1 ∧
          (LockCar env { api with carsCB := cb1, carCB := cb2 } carUID).2.2
            = (LockCar env api carUID).2.2 ∧
          (UnlockCar env { api with carsCB := cb1, carCB := cb2 } carUID).1
            = (UnlockCar env api carUID).1 ∧
          (UnlockCar env { api with carsCB := cb1, carCB := cb2 } carUID).2.2
            = (UnlockCar env api carUID).2.2) ∧
      (∀ (env2 : Env F) (api2 : CarsAPI),
        env2.requestError "POST" (api2.baseURL ++ "/api/v1/cars/" ++ carUID ++ "/lock")
            = none →
          env2.Do { Method := "POST",
                    URL := api2.baseURL ++ "/api/v1/cars/" ++ carUID ++ "/lock" }
            = env.Do { Method := "POST",
                       URL := api.baseURL ++ "/api/v1/cars/" ++ carUID ++ "/lock" } →
          env2.decodeCar = env.decodeCar →
          (LockCar env2 api2 carUID).1 = (LockCar env api carUID).1) ∧
      (∀ (env2 : Env F) (api2 : CarsAPI),
        env2.requestError "DELETE" (api2.baseURL ++ "/api/v1/cars/" ++ carUID ++ "/lock")
            = none →
          env2.Do { Method := "DELETE",
                    URL := api2.baseURL ++ "/api/v1/cars/" ++ carUID ++ "/lock" }
            = env.Do { Method := "DELETE",
                       URL := api.baseURL ++ "/api/v1/cars/" ++ carUID ++ "/lock" } →
          (UnlockCar env2 api2 carUID).1 = (UnlockCar env api carUID).1) ∧
      (∀ e, env.Do { Method := "POST",
                     URL := api.baseURL ++ "/api/v1/cars/" ++ carUID ++ "/lock" }
            = .error e →
          (LockCar env api carUID).1 = (Car.zero F, false, false, some e)) ∧
      (∀ status e, env.Do
            { Method := "POST", URL := api.baseURL ++ "/api/v1/cars/" ++ carUID ++ "/lock" }
            = .ok { StatusCode := status, Body := .error e } →
          (LockCar env api carUID).1 = (Car.zero F, false, false, some e)) ∧
      (∀ status body, env.Do
            { Method := "POST", URL := api.baseURL ++ "/api/v1/cars/" ++ carUID ++ "/lock" }
            = .ok { StatusCode := status, Body := .ok body } →
          (status = StatusNotFound →
            (LockCar env api carUID).1 = (Car.zero F, false, false, none)) ∧
          (status = StatusLocked →
            (LockCar env api carUID).1 = (Car.zero F, true, false, none)) ∧
          (status = StatusOK → ∀ c, env.decodeCar body = .ok c →
            (LockCar env api carUID).1 = (c, true, true, none)) ∧
          (status = StatusOK → ∀ e, env.decodeCar body = .error e →
            (LockCar env api carUID).1 = (Car.zero F, false, false, some e)) ∧
          (status ≠ StatusNotFound → status ≠ StatusLocked → status ≠ StatusOK →
            (LockCar env api carUID).1 = (Car.zero F, false, false, some (.New body)))) ∧
      (∀ e, env.Do { Method := "DELETE",
                     URL := api.baseURL ++ "/api/v1/cars/" ++ carUID ++ "/lock" }
            = .error e →
          (UnlockCar env api carUID).1 = some e) ∧
      (∀ status e, env.Do
            { Method := "DELETE", URL := api.baseURL ++ "/api/v1/cars/" ++ carUID ++ "/lock" }
            = .ok { StatusCode := status, Body := .error e } →
          (UnlockCar env api carUID).1 = some e) ∧
      (∀ status body, env.Do
            { Method := "DELETE", URL := api.baseURL ++ "/api/v1/cars/" ++ carUID ++ "/lock" }
            = .ok { StatusCode := status, Body := .ok body } →
          (status = StatusOK → (UnlockCar env api carUID).1 = none) ∧
          (status ≠ StatusOK → (UnlockCar env api carUID).1 = some (.New body))) := by
  refine ⟨?_, ?_, ?_, ?_, ?_, ?_, ?_, ?_, ?_, ?_, ?_, ?_, ?_⟩
  · simp only [LockCar, NewRequestWithContext, hl]
    repeat' split
    all_goals rfl
  · simp only [UnlockCar, NewRequestWithContext, hu]
    repeat' split
    all_goals rfl
  · simp only [LockCar, NewRequestWithContext, hl]
    repeat' split
    all_goals rfl
  · simp only [UnlockCar, NewRequestWithContext, hu]
    repeat' split
    all_goals rfl
  · intro cb1 cb2
    refine ⟨?_, ?_, ?_, ?_⟩
    · simp only [LockCar, NewRequestWithContext, hl]
      repeat' split
      all_goals simp_all
    · simp only [LockCar, NewRequestWithContext, hl]
      repeat' split
      all_goals simp_all
    · simp only [UnlockCar, NewRequestWithContext, hu]
      repeat' split
      all_goals simp_all
    · simp only [UnlockCar, NewRequestWithContext, hu]
      repeat' split
      all_goals simp_all
  · intro env2 api2 h2 hdo hdec
    simp only [LockCar, NewRequestWithContext, hl, h2, hdo, hdec]
    repeat' split
    all_goals simp_all
  · intro env2 api2 h2 hdo
    simp only [UnlockCar, NewRequestWithContext, hu, h2, hdo]
    repeat' split
    all_goals simp_all
  · intro e hd
    simp [LockCar, NewRequestWithContext, hl, hd]
  · intro status e hd
    simp [LockCar, NewRequestWithContext, hl, hd]
  · intro status body hd
    refine ⟨?_, ?_, ?_, ?_, ?_⟩
    · intro hs
      simp [LockCar, NewRequestWithContext, hl, hd, hs]
    · intro hs
      simp [LockCar, NewRequestWithContext, hl, hd, hs, StatusLocked, StatusNotFound]
    · intro hs c hc
      simp [LockCar, NewRequestWithContext, hl, hd, hs, hc, StatusLocked, StatusNotFound,
        StatusOK]
    · intro hs e he
      simp [LockCar, NewRequestWithContext, hl, hd, hs, he, StatusLocked, StatusNotFound,
        StatusOK]
    · intro h1 h2 h3
      simp [LockCar, NewRequestWithContext, hl, hd, h1, h2, h3]
  · intro e hd
    simp [UnlockCar, NewRequestWithContext, hu, hd]
  · intro status e hd
    simp [UnlockCar, NewRequestWithContext, hu, hd]
  · intro status body hd
    constructor
    · intro hs
      simp [UnlockCar, NewRequestWithContext, hu, hd, hs]
    · intro hs
      simp [UnlockCar, NewRequestWithContext, hu, hd, hs]

/-- Concrete check of C8 on the tripped client, both of whose breakers are
Open: the lock and the unlock request still reach the transport; a 423
answer makes `LockCar` report found but not locked and `UnlockCar` report
the body as an error; a refused connection is returned by both as it is; a
200 answer makes `UnlockCar` return nil. -/
theorem lock_unlock_bypass_breakers_witness :
    tripped.carsCB.state = .StateOpen ∧ tripped.carCB.state = .StateOpen ∧
      (LockCar (envStatus 423 "locked") tripped "c-1").2.2
        = [{ Method := "POST", URL := "http://cars/api/v1/cars/c-1/lock" }] ∧
      (UnlockCar (envStatus 423 "locked") tripped "c-1").2.2
        = [{ Method := "DELETE", URL := "http://cars/api/v1/cars/c-1/lock" }] ∧
      (LockCar (envStatus 423 "locked") tripped "c-1").1
        = (Car.zero Unit, true, false, none) ∧
      (UnlockCar (envStatus 423 "locked") tripped "c-1").1 = some (.New "locked") ∧
      (LockCar (envTransportError (.New "connection refused")) tripped "c-1").1
        = (Car.zero Unit, false, false, some (.New "connection refused")) ∧
      (UnlockCar (envTransportError (.New "connection refused")) tripped "c-1").1
        = some (.New "connection refused") ∧
      (UnlockCar (envStatus 200 "") tripped "c-1").1 = none ∧
      (LockCar (envStatus 423 "locked") tripped "c-1").2.1.carsCB.state = .StateOpen ∧
      (UnlockCar (envStatus 423 "locked") tripped "c-1").2.1.carCB.state = .StateOpen :=
  have h := lock_unlock_bypass_breakers (envStatus 423 "locked") tripped "c-1" rfl rfl
  have h2 := lock_unlock_bypass_breakers (envTransportError (.New "connection refused"))
    tripped "c-1" rfl rfl
  have h3 := lock_unlock_bypass_breakers (envStatus 200 "") tripped "c-1" rfl rfl
  have hopen : tripped.carsCB.state = .StateOpen ∧ tripped.carCB.state = .StateOpen := by
    decide
  ⟨hopen.1, hopen.2, h.1, h.2.1,
    (h.2.2.2.2.2.2.2.2.2.1 423 "locked" rfl).2.1 rfl,
    (h.2.2.2.2.2.2.2.2.2.2.2.2 423 "locked" rfl).2 (by decide),
    h2.2.2.2.2.2.2.2.1 _ rfl,
    h2.2.2.2.2.2.2.2.2.2.2.1 _ rfl,
    (h3.2.2.2.2.2.2.2.2.2.2.2.2 200 "" rfl).1 rfl,
    by rw [h.2.2.1]; exact hopen.1,
    by rw [h.2.2.2.1]; exact hopen.2⟩

/-- C9: `HealthCheck` returns a nil error exactly when the request was sent,
the transport answered it, the body was readable and the status is 200; a
transport failure is returned as it is; an answer with a readable body and
any other status gives an error whose message is the body; the client and
its breakers are returned as they were, and neither the error nor the
requests sent depend on the breakers. -/
theorem HealthCheck_reports_transport {F : Type} (env : Env F) (api : CarsAPI) :
    ((HealthCheck env api).1 = none ↔
        env.requestError "GET" (api.baseURL ++ "/manage/health") = none ∧
        ∃ body, env.Do { Method := "GET", URL := api.baseURL ++ "/manage/health" }
          = .ok { StatusCode := StatusOK, Body := .ok body }) ∧
      (∀ e, env.requestError "GET" (api.baseURL ++ "/manage/health") = none →
        env.Do { Method := "GET", URL := api.baseURL ++ "/manage/health" } = .error e →
        (HealthCheck env api).1 = some e) ∧
      (∀ status body,
        Answers env "GET" (api.baseURL ++ "/manage/health") status body →
        status ≠ StatusOK →
        (HealthCheck env api).1 = some (.New body) ∧
          (HealthCheck env api).1.map GoError.Error = some body) ∧
      (HealthCheck env api).2.1 = api ∧
      (∀ cb1 cb2 : CircuitBreaker,
        (HealthCheck env { api with carsCB := cb1, carCB := cb2 }).1
            = (HealthCheck env api).1 ∧
          (HealthCheck env { api with carsCB := cb1, carCB := cb2 }).2.2
            = (HealthCheck env api).2.2) := by
  refine ⟨?_, ?_, ?_, ?_, ?_⟩
  · simp only [HealthCheck, NewRequestWithContext]
    rcases hr : env.requestError "GET" (api.baseURL ++ "/manage/health") with _ | e
    · rcases hd : env.Do { Method := "GET", URL := api.baseURL ++ "/manage/health" }
        with e | ⟨status, b⟩
      · simp [hd]
      · rcases b with e | body
        · simp [hd]
        · by_cases hs : status = StatusOK
          · simp [hd, hs]
          · simp [hd, hs]
    · simp
  · intro e hr hd
    simp [HealthCheck, NewRequestWithContext, hr, hd]
  · intro status body h hs
    obtain ⟨hr, hd⟩ := h
    simp [HealthCheck, NewRequestWithContext, hr, hd, hs, GoError.Error]
  · simp only [HealthCheck]
    repeat' split
    all_goals rfl
  · intro cb1 cb2
    constructor
    · simp only [HealthCheck]
      repeat' split
      all_goals simp_all
    · simp only [HealthCheck]
      repeat' split
      all_goals simp_all

/-! ## Rejections in the Half-Open state -/

/-- C10 fails on the code: the client built with `maxFails = 1`, tripped by
six failures and probed two seconds later, has both breakers Half-Open with
the one trial call in flight; a further `GetCars` or `GetCar` call is turned
away by the breaker with `ErrTooManyRequests`, no request reaches the
transport, and the operation returns that error instead of its fallback. -/
theorem HalfOpen_rejection_is_returned_as_error :
    probing.carsCB.state = .StateHalfOpen ∧ probing.carCB.state = .StateHalfOpen ∧
      (probing.carsCB.beforeRequest 2000000001).2.2 = some .ErrTooManyRequests ∧
      (GetCars (envStatus 200 "x") probing 2000000001 2000000002 0 10 true).1
        = (none, 0, some .ErrTooManyRequests) ∧
      (GetCars (envStatus 200 "x") probing 2000000001 2000000002 0 10 true).2.2 = [] ∧
      (GetCar (envStatus 200 "x") probing 2000000001 2000000002 "c-1").1
        = (Car.zero Unit, false, some .ErrTooManyRequests) ∧
      (GetCar (envStatus 200 "x") probing 2000000001 2000000002 "c-1").2.2 = [] := by
  decide

end CarsApi
